import Mathlib

/-!
Verification of the credential and secure data-access core of the
esg-pathfinder Streamlit application, via a shallow embedding of the
Python sources (`streamlit/auth.py`, `streamlit/validation.py`,
`streamlit/database.py`, `streamlit/api_integration.py`,
`streamlit/cloud_app.py`) into Lean.

Modelling conventions:
* machine time (`datetime.now()`) is an explicit `Int` parameter counting
  seconds; `timedelta(hours=2)` becomes `2 * 60 * 60`, etc.;
* the external key-derivation primitive `hashlib.pbkdf2_hmac` (Python
  standard library, not part of this repository) is an abstract
  deterministic function parameter `pbkdf2 : String → String → String`
  mapping (password, salt) to a hex digest;
* the fresh random salt produced by `os.urandom(32).hex()` is an explicit
  parameter `freshSalt`;
* Python dictionaries keyed by username become association lists;
* Python functions that raise become `Except String` values; a Python
  function that can fall off the end and return `None` is modelled with an
  `Option` in its result type;
* only the ASCII fragment of Python's `str.strip` / `\s` whitespace is
  modelled (`pyStrip` / `isPySpace`); all inputs in the theorems below are
  ASCII strings, where the two coincide.
-/

/-! ## auth.py: data model -/

/-- One entry of the user table built by `SimpleAuthenticator.get_users`
(auth.py lines 43-64): email, name, password_hash, salt, role,
failed_attempts, locked_until. -/
structure UserRec where
  email : String
  name : String
  password_hash : String
  salt : String
  role : String
  failed_attempts : Nat
  locked_until : Option Int
deriving DecidableEq

/-- The sanitized public view returned by a successful
`SimpleAuthenticator.authenticate` (auth.py lines 112-117): by
construction this type has no password-hash field and no salt field. -/
structure PublicUser where
  username : String
  email : String
  name : String
  role : String
deriving DecidableEq

/-- The user table (the Python dict `users`), as an association list from
username to record. -/
def Users : Type := List (String × UserRec)

/-- Dictionary lookup `users.get(username)` (keys are unique, so the
first match is the entry). -/
def lookupUser : Users → String → Option UserRec
  | [], _ => none
  | p :: rest, username =>
    if p.1 == username then some p.2 else lookupUser rest username

/-- In-place mutation of one entry of the dict (`user['field'] = ...`),
expressed as explicit state passing. -/
def updateUser : Users → String → (UserRec → UserRec) → Users
  | [], _, _ => []
  | p :: rest, username, f =>
    if p.1 == username then (p.1, f p.2) :: rest
    else p :: updateUser rest username f

/-- The environment-variable configuration read by `get_users`
(ADMIN_USERNAME, ADMIN_PASSWORD, ADMIN_EMAIL). -/
structure AuthConfig where
  admin_username : String
  admin_password : String
  admin_email : String
deriving DecidableEq

/-- The default values of the three environment variables in
`get_users` (auth.py lines 48-50). -/
def defaultAuthConfig : AuthConfig :=
  { admin_username := "admin"
    admin_password := "admin123"
    admin_email := "admin@esg-pathfinder.com" }

/-- `self.max_login_attempts = 3` (auth.py line 21). -/
def max_login_attempts : Nat := 3

/-- `self.lockout_duration = timedelta(minutes=15)` (auth.py line 22),
in seconds. -/
def lockout_duration : Int := 15 * 60

/-- `self.session_timeout = timedelta(hours=2)` (auth.py line 20),
in seconds. -/
def session_timeout : Int := 2 * 60 * 60

/-! ## auth.py: operations -/

/-- `SimpleAuthenticator.hash_password` (auth.py lines 24-36): if no salt
is supplied, the freshly generated random salt `freshSalt` is used; the
digest is the external PBKDF2-HMAC-SHA256 primitive applied to the
password and the salt. Returns (digest, salt). -/
def hash_password (pbkdf2 : String → String → String) (freshSalt : String)
    (password : String) (salt : Option String) : String × String :=
  let s := salt.getD freshSalt
  (pbkdf2 password s, s)

/-- `hmac.compare_digest` (auth.py line 41): a constant-time comparison
whose boolean result equals string equality. -/
def compare_digest (a b : String) : Bool := a == b

/-- `SimpleAuthenticator.verify_password` (auth.py lines 38-41):
recompute the digest with the stored salt and compare. -/
def verify_password (pbkdf2 : String → String → String)
    (password stored_hash salt : String) : Bool :=
  compare_digest (pbkdf2 password salt) stored_hash

/-- `SimpleAuthenticator.get_users` (auth.py lines 43-64): rebuilds the
whole user table from the environment on every call, with
`failed_attempts = 0` and `locked_until = None`, and a fresh salt. -/
def get_users (pbkdf2 : String → String → String) (cfg : AuthConfig)
    (freshSalt : String) : Users :=
  [(cfg.admin_username,
    { email := cfg.admin_email
      name := "Administrator"
      password_hash := pbkdf2 cfg.admin_password freshSalt
      salt := freshSalt
      role := "admin"
      failed_attempts := 0
      locked_until := none })]

/-- `SimpleAuthenticator.is_account_locked` (auth.py lines 66-74): locked
iff the user exists, has a `locked_until` timestamp, and `now` is before
it. -/
def is_account_locked (users : Users) (username : String) (now : Int) : Bool :=
  match lookupUser users username with
  | none => false
  | some user =>
    match user.locked_until with
    | none => false
    | some t => decide (now < t)

/-- `SimpleAuthenticator.record_failed_attempt` (auth.py lines 76-86),
in state-passing form over the user table it operates on: increment
`failed_attempts`; if the new count reaches `max_login_attempts`, set
`locked_until = now + lockout_duration`. Unknown users are a no-op. -/
def record_failed_attempt (users : Users) (username : String) (now : Int) : Users :=
  updateUser users username (fun u =>
    let fa := u.failed_attempts + 1
    if fa ≥ max_login_attempts then
      { u with failed_attempts := fa, locked_until := some (now + lockout_duration) }
    else
      { u with failed_attempts := fa })

/-- `SimpleAuthenticator.reset_failed_attempts` (auth.py lines 88-95),
in state-passing form: zero the counter and clear `locked_until`. -/
def reset_failed_attempts (users : Users) (username : String) : Users :=
  updateUser users username (fun u =>
    { u with failed_attempts := 0, locked_until := none })

/-- `SimpleAuthenticator.authenticate` (auth.py lines 97-120), in
state-passing form over a user-table state: unknown user fails; a locked
account fails without touching the counter; otherwise the password is
verified, a success resets the counter and returns the four-field public
view, a failure records the failed attempt. The second component is the
user table after the call's mutation. -/
def authenticate (pbkdf2 : String → String → String) (users : Users)
    (username password : String) (now : Int) : Option PublicUser × Users :=
  match lookupUser users username with
  | none => (none, users)
  | some user =>
    if is_account_locked users username now then
      (none, users)
    else if verify_password pbkdf2 password user.password_hash user.salt then
      (some { username := username, email := user.email, name := user.name, role := user.role },
        reset_failed_attempts users username)
    else
      (none, record_failed_attempt users username now)

/-- One `authenticate` call as the running program actually performs it:
every helper starts from a fresh `get_users()` table, and the mutated
table is discarded at the end of the call (auth.py line 99: the `users`
dict is a local rebuilt on every call, never stored). -/
def authenticate_call (pbkdf2 : String → String → String) (cfg : AuthConfig)
    (freshSalt : String) (username password : String) (now : Int) : Option PublicUser :=
  (authenticate pbkdf2 (get_users pbkdf2 cfg freshSalt) username password now).1

/-- A sequence of `authenticate` calls against the running program: each
call is independent because no state survives a call. -/
def run_auth_calls (pbkdf2 : String → String → String) (cfg : AuthConfig)
    (freshSalt : String) (calls : List (String × String × Int)) : List (Option PublicUser) :=
  calls.map (fun c => authenticate_call pbkdf2 cfg freshSalt c.1 c.2.1 c.2.2)

/-- `SimpleAuthenticator.check_session_timeout` (auth.py lines 122-131):
`False` when no login time is recorded; otherwise `True` iff
`now - login_time < session_timeout`, i.e. the session is still valid. -/
def check_session_timeout (login_time : Option Int) (now : Int) : Bool :=
  match login_time with
  | none => false
  | some t => decide (now - t < session_timeout)

/-! ## validation.py -/

/-- The ASCII whitespace recognised by Python's `str.strip()` and by the
regex class `\s`: space, tab, newline, carriage return, vertical tab,
form feed. -/
def isPySpace (c : Char) : Bool :=
  c = ' ' || c = '\t' || c = '\n' || c = '\r' || c = Char.ofNat 11 || c = Char.ofNat 12

/-- Python `str.strip()`: drop leading and trailing whitespace. -/
def pyStrip (s : String) : String :=
  ⟨((s.data.dropWhile isPySpace).reverse.dropWhile isPySpace).reverse⟩

/-- Expansion of one character under Python `html.escape` (with its
default `quote=True`): `&`, `<`, `>`, the double quote and the single
quote (code 39) are replaced by entities. -/
def htmlEscapeChar (c : Char) : List Char :=
  if c = '&' then "&amp;".data
  else if c = '<' then "&lt;".data
  else if c = '>' then "&gt;".data
  else if c = '"' then "&quot;".data
  else if c = Char.ofNat 39 then "&#x27;".data
  else [c]

/-- Python `html.escape` over a whole string. -/
def htmlEscape (s : String) : String :=
  ⟨s.data.foldr (fun c acc => htmlEscapeChar c ++ acc) []⟩

/-- The character class of the project-name regex
`^[a-zA-Z0-9\s\-_.,()&]+$` (validation.py line 36). -/
def allowedNameChar (c : Char) : Bool :=
  ('a' ≤ c && c ≤ 'z') || ('A' ≤ c && c ≤ 'Z') || ('0' ≤ c && c ≤ '9') ||
  isPySpace c || c = '-' || c = '_' || c = '.' || c = ',' ||
  c = '(' || c = ')' || c = '&'

/-- `InputValidator.validate_project_name` (validation.py lines 21-42):
required, stripped, non-empty, at most 255 characters, restricted
character set, HTML-escaped. -/
def validate_project_name (name : String) : Except String String :=
  if name = "" then Except.error "Project name is required"
  else
    let name := pyStrip name
    if name.length = 0 then Except.error "Project name cannot be empty"
    else if name.length > 255 then Except.error "Project name cannot exceed 255 characters"
    else if !(name.data.all allowedNameChar) then
      Except.error "Project name contains invalid characters"
    else Except.ok (htmlEscape name)

/-- `InputValidator.validate_year` (validation.py lines 88-106): required,
integral, bounded to `[2000, current_year + 10]`. The `int(year)` parse
is modelled by taking the input already as an integer; `datetime.now().year`
is the explicit parameter `current_year`. -/
def validate_year (year : Option Int) (current_year : Int) : Except String Int :=
  match year with
  | none => Except.error "Year is required"
  | some y =>
    if y < 2000 ∨ y > current_year + 10 then
      Except.error ("Year must be between 2000 and " ++ toString (current_year + 10))
    else Except.ok y

/-- `InputValidator.validate_metric_value` (validation.py lines 138-153):
required, numeric, magnitude at most `1e15`. The Python float is modelled
as a rational; the bound `1e15` is exactly representable so the
comparison at stake is exact. -/
def validate_metric_value (value : Option ℚ) : Except String ℚ :=
  match value with
  | none => Except.error "Metric value is required"
  | some v =>
    if |v| > (10 : ℚ) ^ 15 then Except.error "Metric value is out of reasonable range"
    else Except.ok v

/-- `InputValidator.validate_text_input` (validation.py lines 172-186):
`None` becomes the empty string; otherwise strip, enforce the length
bound, HTML-escape. -/
def validate_text_input (text : Option String) (field_name : String)
    (max_length : Nat) : Except String String :=
  match text with
  | none => Except.ok ""
  | some t =>
    let t := pyStrip t
    if t.length > max_length then
      Except.error (field_name ++ " cannot exceed " ++ toString max_length ++ " characters")
    else Except.ok (htmlEscape t)

/-- `ESGDataValidator.validate_tcfd_assessment` (validation.py lines
218-246): validate the four sections through `validate_text_input` with
bound 10000 (in dict order: governance, strategy, risk_management,
metrics_targets, the first failure winning), then require that at least
one validated section still has content after stripping. -/
def validate_tcfd_assessment (governance strategy risk_management metrics_targets : Option String) :
    Except String (String × String × String × String) :=
  match validate_text_input governance "Governance disclosures" 10000 with
  | Except.error e => Except.error e
  | Except.ok g =>
    match validate_text_input strategy "Strategy disclosures" 10000 with
    | Except.error e => Except.error e
    | Except.ok s =>
      match validate_text_input risk_management "Risk management disclosures" 10000 with
      | Except.error e => Except.error e
      | Except.ok r =>
        match validate_text_input metrics_targets "Metrics and targets" 10000 with
        | Except.error e => Except.error e
        | Except.ok m =>
          if (pyStrip g).length > 0 || (pyStrip s).length > 0 ||
              (pyStrip r).length > 0 || (pyStrip m).length > 0 then
            Except.ok (g, s, r, m)
          else
            Except.error "At least one TCFD section must contain content"

/-- The sanitized form `validate_text_input` produces for a section that
is within its length bound: missing becomes empty, then strip, then
HTML-escape. -/
def sanitizeSection (o : Option String) : String :=
  htmlEscape (pyStrip (o.getD ""))

/-- The `has_content` check of `validate_tcfd_assessment` (validation.py
lines 239-241), applied to the four sanitized sections. -/
def tcfdHasContent (governance strategy risk_management metrics_targets : Option String) : Bool :=
  (pyStrip (sanitizeSection governance)).length > 0 ||
  (pyStrip (sanitizeSection strategy)).length > 0 ||
  (pyStrip (sanitizeSection risk_management)).length > 0 ||
  (pyStrip (sanitizeSection metrics_targets)).length > 0

/-! ## database.py -/

/-- The `DatabaseError` exception raised by `SecureDatabase`
(database.py line 118): it carries only a message string. -/
structure DatabaseError where
  message : String
deriving DecidableEq

/-- The two classes of backend fault distinguished by the `except`
clauses of `SecureDatabase` (database.py lines 85-90 and 102-107):
`sqlalchemy.exc.SQLAlchemyError` and any other exception, each carrying
its raw message `str(e)`. -/
inductive BackendFault where
  | sqlalchemy (msg : String)
  | other (msg : String)
deriving DecidableEq

/-- `SecureDatabase.execute_query` (database.py lines 76-90): the backend
outcome (result rows, or a fault) is an explicit parameter; a successful
execution returns the rows, a fault is re-raised as a `DatabaseError`
whose message is a fixed prefix followed by the raw backend message
`str(e)`. The statement text and the parameters do not enter the error. -/
def execute_query {ρ : Type} (query : String) (params : List (String × String))
    (backend : Except BackendFault ρ) : Except DatabaseError ρ :=
  match backend with
  | Except.ok rows => Except.ok rows
  | Except.error (BackendFault.sqlalchemy e) =>
    Except.error { message := "Database query failed: " ++ e }
  | Except.error (BackendFault.other e) =>
    Except.error { message := "Unexpected database error: " ++ e }

/-- `SecureDatabase.execute_non_query` (database.py lines 92-107): same
discipline, returning the affected row count, with its own message
prefix. -/
def execute_non_query (query : String) (params : List (String × String))
    (backend : Except BackendFault Nat) : Except DatabaseError Nat :=
  match backend with
  | Except.ok n => Except.ok n
  | Except.error (BackendFault.sqlalchemy e) =>
    Except.error { message := "Database operation failed: " ++ e }
  | Except.error (BackendFault.other e) =>
    Except.error { message := "Unexpected database error: " ++ e }

/-! ## api_integration.py -/

/-- `hybrid_data_loader` (api_integration.py lines 202-223), one
invocation of the returned closure. `remote_enabled` models
`st.session_state.api_integration_enabled` being present and true;
`api_loader` and `local_loader` are the outcomes of calling the two
accessors. The result triple is (returned value, number of api_loader
calls, number of local_loader calls); `Except.ok none` is the Python
`None` returned when the function falls off the end. -/
def hybrid_data_loader {α : Type} (remote_enabled fallback_local : Bool)
    (api_loader local_loader : Except String α) :
    Except String (Option α) × Nat × Nat :=
  match remote_enabled, api_loader with
  | true, Except.ok a => (Except.ok (some a), 1, 0)
  | true, Except.error _ =>
    if fallback_local then
      match local_loader with
      | Except.ok b => (Except.ok (some b), 1, 1)
      | Except.error e2 => (Except.error e2, 1, 1)
    else
      (Except.ok none, 1, 0)
  | false, _ =>
    if fallback_local then
      match local_loader with
      | Except.ok b => (Except.ok (some b), 0, 1)
      | Except.error e2 => (Except.error e2, 0, 1)
    else
      (Except.ok none, 0, 0)

/-! ## cloud_app.py -/

/-- Python `str.lower()` (ASCII fragment), character by character. -/
def pyLower (s : String) : String :=
  ⟨s.data.map Char.toLower⟩

/-- The statement text built by `show_framework_assessment`
(cloud_app.py lines 620-626: the f-string
`INSERT OR REPLACE INTO {framework.lower()}_assessments ... VALUES (?, ?, ?, ?, ?, ?)`),
with the whitespace of the Python triple-quoted string normalised to
single spaces. `framework` is read from `st.session_state.selected_framework`. -/
def framework_assessment_statement (framework : String) : String :=
  "INSERT OR REPLACE INTO " ++ pyLower framework ++
    "_assessments (id, project_id, governance_data, strategy_data, risk_management_data, metrics_targets_data) VALUES (?, ?, ?, ?, ?, ?)"

/-- The column whitelist filter of `update_project` (database.py lines
205-208): only `name`, `description` and `status` keys survive into SET
clauses. -/
def update_project_set_columns (keys : List String) : List String :=
  keys.filter (fun k => k = "name" || k = "description" || k = "status")

/-- The UPDATE statement built by `update_project` (database.py lines
201-219), with whitespace normalised. -/
def update_project_statement (keys : List String) : String :=
  let clauses := (update_project_set_columns keys).map (fun k => k ++ " = :" ++ k)
  "UPDATE projects SET " ++
    String.intercalate ", " (clauses ++ ["updated_at = datetime('now')"]) ++
    " WHERE id = :project_id"

/-! ## Supporting lemmas -/

theorem lookupUser_updateUser (users : Users) (username : String) (f : UserRec → UserRec) :
    lookupUser (updateUser users username f) username = (lookupUser users username).map f := by
  induction users with
  | nil => rfl
  | cons p rest ih =>
    by_cases h : (p.1 == username) = true
    · simp [lookupUser, updateUser, h]
    · simp [lookupUser, updateUser, h, ih]

theorem validate_project_name_long (s : String) (h : 255 < (pyStrip s).length) :
    validate_project_name s = Except.error "Project name cannot exceed 255 characters" := by
  have hs : ¬ (s = "") := by
    intro hs
    rw [hs] at h
    exact absurd h (by decide)
  have h0 : ¬ ((pyStrip s).length = 0) := by omega
  simp only [validate_project_name, if_neg hs, if_neg h0, if_pos h]

theorem validate_text_input_ok (o : Option String) (fn : String)
    (h : (pyStrip (o.getD "")).length ≤ 10000) :
    validate_text_input o fn 10000 = Except.ok (sanitizeSection o) := by
  cases o with
  | none => rfl
  | some t =>
    simp only [Option.getD] at h
    simp only [validate_text_input]
    rw [if_neg (by omega)]
    rfl

/-! ## Claim theorems -/

/-- C6: for every session with login time T, `check_session_timeout`
(the session-validity check) returns true at T + 119 minutes and false at
T + 121 minutes, and in general returns true iff now - login_time is
strictly less than 2 hours. -/
theorem C6_session_validity (T now : Int) :
    check_session_timeout (some T) (T + 119 * 60) = true ∧
    check_session_timeout (some T) (T + 121 * 60) = false ∧
    (check_session_timeout (some T) now = true ↔ now - T < 2 * 60 * 60) := by
  refine ⟨?_, ?_, ?_⟩
  · simp only [check_session_timeout, session_timeout, decide_eq_true_eq]
    omega
  · simp only [check_session_timeout, session_timeout, decide_eq_false_iff_not]
    omega
  · simp only [check_session_timeout, session_timeout, decide_eq_true_eq]

/-- C3 (amended): `hybrid_data_loader` with remote enabled and remote
succeeding calls remote once, never calls local, and returns remote's
result unmodified; with remote raising and fallback allowed it calls
remote once then local once and returns local's outcome (a local failure
propagating); with fallback disallowed the remote failure is swallowed
after logging and the call returns Python `None` (`Except.ok none`),
local never being called. -/
theorem C3_hybrid_loader_behaviour (α : Type) (a b : α) (e e2 : String)
    (loc : Except String α) :
    hybrid_data_loader true true (Except.ok a) loc = (Except.ok (some a), 1, 0) ∧
    hybrid_data_loader true false (Except.ok a) loc = (Except.ok (some a), 1, 0) ∧
    hybrid_data_loader true true (Except.error e) (Except.ok b) = (Except.ok (some b), 1, 1) ∧
    hybrid_data_loader true true (Except.error e) (Except.error e2 : Except String α) =
      (Except.error e2, 1, 1) ∧
    hybrid_data_loader true false (Except.error e) loc = (Except.ok none, 1, 0) :=
  ⟨rfl, rfl, rfl, rfl, rfl⟩

/-- C3 (counterexample to the claim as stated): with remote enabled,
remote raising and `allow_local_fallback = false`, the original remote
failure does NOT propagate to the caller: the loader returns Python
`None` (`Except.ok none`). Local is indeed never called. -/
theorem C3_counterexample :
    (hybrid_data_loader true false (Except.error "remote down") (Except.ok (42 : Nat))).1 =
      Except.ok none ∧
    (hybrid_data_loader true false (Except.error "remote down") (Except.ok (42 : Nat))).1 ≠
      Except.error "remote down" ∧
    (hybrid_data_loader true false (Except.error "remote down") (Except.ok (42 : Nat))).2.2 = 0 := by
  refine ⟨rfl, ?_, rfl⟩
  simp [hybrid_data_loader]

/-- C4 (amended): on a backend fault, `execute_query` and
`execute_non_query` raise a `DatabaseError` whose message is a fixed
prefix followed by the raw backend error string; the statement name does
not enter the error (the error is identical for any two statements and
parameter mappings). -/
theorem C4_database_error_shape (ρ : Type) (q1 q2 : String)
    (p1 p2 : List (String × String)) (e : String) :
    (execute_query q1 p1 (Except.error (BackendFault.sqlalchemy e)) : Except DatabaseError ρ) =
      Except.error { message := "Database query failed: " ++ e } ∧
    execute_non_query q1 p1 (Except.error (BackendFault.sqlalchemy e)) =
      Except.error { message := "Database operation failed: " ++ e } ∧
    (execute_query q1 p1 (Except.error (BackendFault.sqlalchemy e)) : Except DatabaseError ρ) =
      execute_query q2 p2 (Except.error (BackendFault.sqlalchemy e)) :=
  ⟨rfl, rfl, rfl⟩

/-- C4 (counterexample to the claim as stated): at a concrete backend
fault with message "boom", the `DatabaseError` handed to the caller has
message "Database query failed: boom" - it contains the raw backend
message verbatim, and it is the same error for two different statements,
so it cannot carry the statement name. -/
theorem C4_counterexample :
    execute_query "SELECT id FROM projects" []
        (Except.error (BackendFault.sqlalchemy "boom") : Except BackendFault (List Nat)) =
      Except.error { message := "Database query failed: boom" } ∧
    execute_query "SELECT name FROM organisations" []
        (Except.error (BackendFault.sqlalchemy "boom") : Except BackendFault (List Nat)) =
      Except.error { message := "Database query failed: boom" } ∧
    "Database query failed: boom" = "Database query failed: " ++ "boom" :=
  ⟨rfl, rfl, rfl⟩

set_option maxRecDepth 8192 in
/-- C5: the claim that no code path synthesizes a table name from
caller-supplied text fails on `show_framework_assessment` (cloud_app.py
lines 620-626): the statement text is an f-string interpolating the
lowercased `st.session_state.selected_framework` value into the table
name, so the statement varies with that string and carries any injected
text verbatim; `update_project` (database.py lines 201-219), by
contrast, does keep its SET columns inside the fixed whitelist. -/
theorem C5_statement_built_from_caller_text :
    framework_assessment_statement "tcfd" ≠ framework_assessment_statement "csrd" ∧
    framework_assessment_statement "x; drop table projects; --" =
      "INSERT OR REPLACE INTO x; drop table projects; --_assessments (id, project_id, governance_data, strategy_data, risk_management_data, metrics_targets_data) VALUES (?, ?, ?, ?, ?, ?)" ∧
    update_project_set_columns ["name", "status", "evil"] = ["name", "status"] := by
  refine ⟨by decide, by decide, by decide⟩

/-- C2: for every password P and the salt S that a fresh-salt
`hash_password` call returns, `verify_password` accepts P against the
returned digest and S; and it rejects any P' different from P whenever
the external PBKDF2 primitive does not collide on (P, P', S) - the
cryptographic contract of PBKDF2-HMAC-SHA256, which is external to the
repository and therefore a hypothesis of the model. -/
theorem C2_hash_verify_roundtrip (pbkdf2 : String → String → String)
    (freshSalt password : String) :
    verify_password pbkdf2 password
      (hash_password pbkdf2 freshSalt password none).1
      (hash_password pbkdf2 freshSalt password none).2 = true ∧
    ∀ password' : String, password' ≠ password →
      pbkdf2 password' (hash_password pbkdf2 freshSalt password none).2 ≠
        pbkdf2 password (hash_password pbkdf2 freshSalt password none).2 →
      verify_password pbkdf2 password'
        (hash_password pbkdf2 freshSalt password none).1
        (hash_password pbkdf2 freshSalt password none).2 = false := by
  constructor
  · simp [hash_password, verify_password, compare_digest]
  · intro p' hne hcol
    simp only [hash_password, verify_password, compare_digest, Option.getD] at hcol ⊢
    exact beq_eq_false_iff_ne.mpr hcol

/-- C2 witness: concrete instantiation with an injective stand-in for
the abstract primitive. -/
theorem C2_hash_verify_roundtrip_witness :
    verify_password (fun p s => p ++ "#" ++ s) "pw"
      (hash_password (fun p s => p ++ "#" ++ s) "s0" "pw" none).1
      (hash_password (fun p s => p ++ "#" ++ s) "s0" "pw" none).2 = true ∧
    verify_password (fun p s => p ++ "#" ++ s) "qw"
      (hash_password (fun p s => p ++ "#" ++ s) "s0" "pw" none).1
      (hash_password (fun p s => p ++ "#" ++ s) "s0" "pw" none).2 = false :=
  ⟨(C2_hash_verify_roundtrip (fun p s => p ++ "#" ++ s) "s0" "pw").1,
   (C2_hash_verify_roundtrip (fun p s => p ++ "#" ++ s) "s0" "pw").2 "qw"
     (by decide) (by decide)⟩

set_option maxRecDepth 8192 in
/-- C7: `InputValidator` rejects any project name longer than 255
characters after stripping (in particular a plain 256-character name)
and accepts a 255-character name; rejects year 1999 and year
current_year + 11 and accepts exactly the years in
[2000, current_year + 10]; rejects any metric value of magnitude above
1e15, in particular 2e15. -/
theorem C7_input_validator_bounds (current_year : Int) :
    (∀ s : String, 255 < (pyStrip s).length →
      ∀ v : String, validate_project_name s ≠ Except.ok v) ∧
    validate_project_name (String.mk (List.replicate 256 'a')) =
      Except.error "Project name cannot exceed 255 characters" ∧
    validate_project_name (String.mk (List.replicate 255 'a')) =
      Except.ok (String.mk (List.replicate 255 'a')) ∧
    validate_year (some 1999) current_year =
      Except.error ("Year must be between 2000 and " ++ toString (current_year + 10)) ∧
    validate_year (some (current_year + 11)) current_year =
      Except.error ("Year must be between 2000 and " ++ toString (current_year + 10)) ∧
    (∀ y : Int, validate_year (some y) current_year = Except.ok y ↔
      2000 ≤ y ∧ y ≤ current_year + 10) ∧
    (∀ v : ℚ, |v| > (10 : ℚ) ^ 15 →
      validate_metric_value (some v) =
        Except.error "Metric value is out of reasonable range") ∧
    validate_metric_value (some (2 * 10 ^ 15)) =
      Except.error "Metric value is out of reasonable range" := by
  refine ⟨?_, ?_, ?_, ?_, ?_, ?_, ?_, ?_⟩
  · intro s h v
    rw [validate_project_name_long s h]
    simp
  · exact validate_project_name_long _ (by decide)
  · rfl
  · simp only [validate_year]
    rw [if_pos (Or.inl (by norm_num))]
  · simp only [validate_year]
    rw [if_pos (Or.inr (by omega))]
  · intro y
    constructor
    · intro hok
      by_cases hc : y < 2000 ∨ y > current_year + 10
      · rw [validate_year, if_pos hc] at hok
        exact absurd hok (by simp)
      · push_neg at hc
        omega
    · intro hy
      simp only [validate_year]
      rw [if_neg (by omega)]
  · intro v hv
    simp only [validate_metric_value]
    rw [if_pos hv]
  · simp only [validate_metric_value]
    rw [if_pos (by rw [abs_of_pos (by norm_num)]; norm_num)]

set_option maxRecDepth 8192 in
/-- C7 witness: a 300-character name is rejected; a value of magnitude
3e15 is rejected. -/
theorem C7_input_validator_bounds_witness :
    validate_project_name (String.mk (List.replicate 300 'b')) ≠ Except.ok "x" ∧
    validate_metric_value (some (3 * 10 ^ 15)) =
      Except.error "Metric value is out of reasonable range" :=
  ⟨(C7_input_validator_bounds 0).1 _ (by decide) "x",
   (C7_input_validator_bounds 0).2.2.2.2.2.2.1 (3 * 10 ^ 15)
     (by rw [abs_of_pos (by norm_num)]; norm_num)⟩

/-- C8: within one `authenticate` call (over the user-table state the
call operates on), a successful verification resets the failure counter
to 0 (and clears the lock) and returns the sanitized public view - whose
type `PublicUser` carries neither the password hash nor the salt; a
failed verification returns no credential, increments the failure
counter, and sets `locked_until = now + lockout_duration` exactly when
the new count reaches the threshold. -/
theorem C8_authenticate_per_call (pbkdf2 : String → String → String) (users : Users)
    (username password : String) (now : Int) (u : UserRec)
    (hlook : lookupUser users username = some u)
    (hnl : is_account_locked users username now = false) :
    (verify_password pbkdf2 password u.password_hash u.salt = true →
      (authenticate pbkdf2 users username password now).1 =
        some { username := username, email := u.email, name := u.name, role := u.role } ∧
      lookupUser (authenticate pbkdf2 users username password now).2 username =
        some { u with failed_attempts := 0, locked_until := none }) ∧
    (verify_password pbkdf2 password u.password_hash u.salt = false →
      (authenticate pbkdf2 users username password now).1 = none ∧
      lookupUser (authenticate pbkdf2 users username password now).2 username =
        some { u with
          failed_attempts := u.failed_attempts + 1
          locked_until :=
            if u.failed_attempts + 1 ≥ max_login_attempts then
              some (now + lockout_duration)
            else u.locked_until }) := by
  have hmain : authenticate pbkdf2 users username password now =
      if verify_password pbkdf2 password u.password_hash u.salt then
        (some { username := username, email := u.email, name := u.name, role := u.role },
          reset_failed_attempts users username)
      else
        (none, record_failed_attempt users username now) := by
    unfold authenticate
    rw [hlook, hnl]
    simp
  constructor
  · intro hv
    rw [hmain, if_pos hv]
    refine ⟨rfl, ?_⟩
    unfold reset_failed_attempts
    rw [lookupUser_updateUser, hlook]
    rfl
  · intro hv
    rw [hmain, if_neg (by simp [hv])]
    refine ⟨rfl, ?_⟩
    unfold record_failed_attempt
    rw [lookupUser_updateUser, hlook]
    by_cases hfa : u.failed_attempts + 1 ≥ max_login_attempts
    · simp only [Option.map_some', if_pos hfa]
    · simp only [Option.map_some', if_neg hfa]

/-- C8 witness: against the concrete bootstrap table, the correct
password yields the sanitized view, the wrong one yields no credential. -/
theorem C8_authenticate_per_call_witness :
    (authenticate (fun p s => p ++ "#" ++ s)
        (get_users (fun p s => p ++ "#" ++ s) defaultAuthConfig "s0")
        "admin" "admin123" 0).1 =
      some { username := "admin", email := "admin@esg-pathfinder.com",
             name := "Administrator", role := "admin" } ∧
    (authenticate (fun p s => p ++ "#" ++ s)
        (get_users (fun p s => p ++ "#" ++ s) defaultAuthConfig "s0")
        "admin" "nope" 0).1 = none :=
  ⟨((C8_authenticate_per_call (fun p s => p ++ "#" ++ s)
      (get_users (fun p s => p ++ "#" ++ s) defaultAuthConfig "s0")
      "admin" "admin123" 0
      { email := "admin@esg-pathfinder.com", name := "Administrator",
        password_hash := "admin123#s0", salt := "s0", role := "admin",
        failed_attempts := 0, locked_until := none }
      (by decide) (by decide)).1 (by decide)).1,
   ((C8_authenticate_per_call (fun p s => p ++ "#" ++ s)
      (get_users (fun p s => p ++ "#" ++ s) defaultAuthConfig "s0")
      "admin" "nope" 0
      { email := "admin@esg-pathfinder.com", name := "Administrator",
        password_hash := "admin123#s0", salt := "s0", role := "admin",
        failed_attempts := 0, locked_until := none }
      (by decide) (by decide)).2 (by decide)).1⟩

/-- C9: an `authenticate` call for an unknown identity and one for a
known identity with a wrong password return the same value at the
caller's return type: both are `none` (Python `None`). -/
theorem C9_failure_indistinguishable (pbkdf2 : String → String → String) (users : Users)
    (u1 p1 u2 p2 : String) (now1 now2 : Int) (u : UserRec)
    (h1 : lookupUser users u1 = none)
    (h2 : lookupUser users u2 = some u)
    (h3 : is_account_locked users u2 now2 = false)
    (h4 : verify_password pbkdf2 p2 u.password_hash u.salt = false) :
    (authenticate pbkdf2 users u1 p1 now1).1 = (authenticate pbkdf2 users u2 p2 now2).1 ∧
    (authenticate pbkdf2 users u1 p1 now1).1 = none := by
  have ha : (authenticate pbkdf2 users u1 p1 now1).1 = none := by
    unfold authenticate
    rw [h1]
  have hb : (authenticate pbkdf2 users u2 p2 now2).1 = none := by
    unfold authenticate
    rw [h2, h3]
    simp [h4]
  exact ⟨ha.trans hb.symm, ha⟩

/-- C9 witness: concrete unknown identity versus known identity with a
wrong password. -/
theorem C9_failure_indistinguishable_witness :
    (authenticate (fun p s => p ++ "#" ++ s)
        (get_users (fun p s => p ++ "#" ++ s) defaultAuthConfig "s0")
        "ghost" "whatever" 0).1 =
      (authenticate (fun p s => p ++ "#" ++ s)
        (get_users (fun p s => p ++ "#" ++ s) defaultAuthConfig "s0")
        "admin" "nope" 0).1 :=
  (C9_failure_indistinguishable (fun p s => p ++ "#" ++ s)
    (get_users (fun p s => p ++ "#" ++ s) defaultAuthConfig "s0")
    "ghost" "whatever" "admin" "nope" 0 0
    { email := "admin@esg-pathfinder.com", name := "Administrator",
      password_hash := "admin123#s0", salt := "s0", role := "admin",
      failed_attempts := 0, locked_until := none }
    (by decide) (by decide) (by decide) (by decide)).1

/-- C1: the claim fails on the code: because `get_users` rebuilds the
credential table (failure counter 0, no lock) on every call and the
mutations of `record_failed_attempt` are made to a per-call local table,
three consecutive failed `authenticate` calls do NOT lock the account,
and a fourth call with the correct password - even inside the would-be
15-minute window - succeeds instead of being rejected. -/
theorem C1_lockout_never_persists (pbkdf2 : String → String → String) (S : String)
    (t1 t2 t3 t4 : Int)
    (hwrong : pbkdf2 "wrong" S ≠ pbkdf2 "admin123" S)
    (hseq : t1 ≤ t2 ∧ t2 ≤ t3 ∧ t3 ≤ t4 ∧ t4 < t1 + lockout_duration) :
    run_auth_calls pbkdf2 defaultAuthConfig S
      [("admin", "wrong", t1), ("admin", "wrong", t2), ("admin", "wrong", t3),
        ("admin", "admin123", t4)] =
      [none, none, none,
        some { username := "admin", email := "admin@esg-pathfinder.com",
               name := "Administrator", role := "admin" }] ∧
    is_account_locked (get_users pbkdf2 defaultAuthConfig S) "admin" t4 = false := by
  have hb : (pbkdf2 "wrong" S == pbkdf2 "admin123" S) = false :=
    beq_eq_false_iff_ne.mpr hwrong
  have hl : lookupUser (get_users pbkdf2 defaultAuthConfig S) "admin" =
      some { email := "admin@esg-pathfinder.com", name := "Administrator",
             password_hash := pbkdf2 "admin123" S, salt := S, role := "admin",
             failed_attempts := 0, locked_until := none } := rfl
  have hlock : ∀ t : Int,
      is_account_locked (get_users pbkdf2 defaultAuthConfig S) "admin" t = false :=
    fun _ => rfl
  have hwrongcall : ∀ t : Int,
      authenticate_call pbkdf2 defaultAuthConfig S "admin" "wrong" t = none := by
    intro t
    unfold authenticate_call authenticate
    rw [hl, hlock]
    simp [verify_password, compare_digest, hb]
  have hokcall : ∀ t : Int,
      authenticate_call pbkdf2 defaultAuthConfig S "admin" "admin123" t =
        some { username := "admin", email := "admin@esg-pathfinder.com",
               name := "Administrator", role := "admin" } := by
    intro t
    unfold authenticate_call authenticate
    rw [hl, hlock]
    simp [verify_password, compare_digest]
  refine ⟨?_, hlock t4⟩
  unfold run_auth_calls
  simp [hwrongcall, hokcall]

/-- C1 witness: the concrete four-call sequence inside the would-be
lockout window, against an injective stand-in primitive. -/
theorem C1_lockout_never_persists_witness :
    run_auth_calls (fun p s => p ++ s) defaultAuthConfig "!"
      [("admin", "wrong", 0), ("admin", "wrong", 0), ("admin", "wrong", 0),
        ("admin", "admin123", 0)] =
      [none, none, none,
        some { username := "admin", email := "admin@esg-pathfinder.com",
               name := "Administrator", role := "admin" }] :=
  (C1_lockout_never_persists (fun p s => p ++ s) "!" 0 0 0 0 (by decide)
    ⟨by decide, by decide, by decide, by decide⟩).1

theorem dropWhile_isPySpace_replicate (n : Nat) (c : Char) (h : isPySpace c = false) :
    List.dropWhile isPySpace (List.replicate n c) = List.replicate n c := by
  cases n with
  | zero => rfl
  | succ k =>
    rw [List.replicate_succ, List.dropWhile_cons, h]
    simp [← List.replicate_succ]

theorem pyStrip_replicate (n : Nat) (c : Char) (h : isPySpace c = false) :
    pyStrip (String.mk (List.replicate n c)) = String.mk (List.replicate n c) := by
  unfold pyStrip
  rw [show (String.mk (List.replicate n c)).data = List.replicate n c from rfl,
    dropWhile_isPySpace_replicate n c h, List.reverse_replicate,
    dropWhile_isPySpace_replicate n c h, List.reverse_replicate]

theorem validate_text_input_strategy_overlong :
    validate_text_input (some (String.mk (List.replicate 10001 'a')))
      "Strategy disclosures" 10000 =
      Except.error "Strategy disclosures cannot exceed 10000 characters" := by
  have hlen : (pyStrip (String.mk (List.replicate 10001 'a'))).length > 10000 := by
    rw [pyStrip_replicate 10001 'a' (by decide)]
    show (List.replicate 10001 'a').length > 10000
    rw [List.length_replicate]
    norm_num
  simp only [validate_text_input]
  rw [if_pos hlen]
  rfl

/-- C10 (amended): provided each of the four sections is within its
10000-character bound after stripping, `validate_tcfd_assessment`
succeeds with the four sanitized sections exactly when at least one
sanitized section still has non-whitespace content, and fails with the
"At least one TCFD section must contain content" error when all four are
empty or whitespace-only. -/
theorem C10_tcfd_validation (g s r m : Option String)
    (hg : (pyStrip (g.getD "")).length ≤ 10000)
    (hs2 : (pyStrip (s.getD "")).length ≤ 10000)
    (hr : (pyStrip (r.getD "")).length ≤ 10000)
    (hm : (pyStrip (m.getD "")).length ≤ 10000) :
    (tcfdHasContent g s r m = true →
      validate_tcfd_assessment g s r m =
        Except.ok (sanitizeSection g, sanitizeSection s, sanitizeSection r,
          sanitizeSection m)) ∧
    (tcfdHasContent g s r m = false →
      validate_tcfd_assessment g s r m =
        Except.error "At least one TCFD section must contain content") := by
  have e1 := validate_text_input_ok g "Governance disclosures" hg
  have e2 := validate_text_input_ok s "Strategy disclosures" hs2
  have e3 := validate_text_input_ok r "Risk management disclosures" hr
  have e4 := validate_text_input_ok m "Metrics and targets" hm
  have hmain : validate_tcfd_assessment g s r m =
      if tcfdHasContent g s r m then
        Except.ok (sanitizeSection g, sanitizeSection s, sanitizeSection r,
          sanitizeSection m)
      else Except.error "At least one TCFD section must contain content" := by
    unfold validate_tcfd_assessment
    rw [e1, e2, e3, e4]
    rfl
  constructor
  · intro hc
    rw [hmain, if_pos hc]
  · intro hc
    rw [hmain, if_neg (by simp [hc])]

/-- C10 witness: one non-empty section within bounds, three empty ones. -/
theorem C10_tcfd_validation_witness :
    validate_tcfd_assessment (some "hello") (some "") (some "") (some "") =
      Except.ok (sanitizeSection (some "hello"), sanitizeSection (some ""),
        sanitizeSection (some ""), sanitizeSection (some "")) :=
  (C10_tcfd_validation (some "hello") (some "") (some "") (some "")
    (by decide) (by decide) (by decide) (by decide)).1 (by decide)

/-- C10 (counterexample to the claim as stated): the governance section
"x" has non-whitespace content within its length bound, yet the
assessment fails, because the strategy section exceeds its own bound -
so "succeeds whenever at least one section has non-whitespace content
within its length bound" is false of the code. -/
theorem C10_counterexample :
    0 < (pyStrip "x").length ∧ ("x" : String).length ≤ 10000 ∧
    validate_tcfd_assessment (some "x")
        (some (String.mk (List.replicate 10001 'a'))) (some "") (some "") =
      Except.error "Strategy disclosures cannot exceed 10000 characters" := by
  refine ⟨by decide, by decide, ?_⟩
  unfold validate_tcfd_assessment
  rw [show validate_text_input (some "x") "Governance disclosures" 10000 =
      Except.ok "x" from rfl]
  rw [validate_text_input_strategy_overlong]
